import Mathlib

/-!
Shallow embedding of the cpal ASIO stream engine (src/host/asio/stream.rs).

Conventions used throughout:
- Rust machine integers are modelled as `Int` with explicit twos-complement
  narrowing (`asI16`, `asI32`) at every `as iN` cast; Rust `i64` division
  truncates toward zero, which is `Int.tdiv`.
- The host is modelled as little-endian (ASIO is a Windows API), so the
  `PrimInt::to_le` / `from_le` calls are the identity and `to_be` / `from_be`
  are byte reversals.
- Stateful code is modelled by explicit state passing; the driver-owned parts
  of the state (sample rate, stream preparation results, the SILENCE flags of
  the asio-sys crate, and the asio_utils interleave helpers) are not under the
  provided src/ tree; the definitions concerned carry a
  `Modelled from the spec:` doc comment.
-/

namespace CpalAsio

/-! ## Sample conversion (the convert_sample! macro arms for the i16 logical
    format against an Int32 hardware format) -/

/-- Rust `as i32` narrowing cast: reduce modulo 2^32 into [-2^31, 2^31). -/
def asI32 (z : Int) : Int := (z + 2147483648) % 4294967296 - 2147483648

/-- Rust `as i16` narrowing cast: reduce modulo 2^16 into [-2^15, 2^15). -/
def asI16 (z : Int) : Int := (z + 32768) % 65536 - 32768

/-- Output-path convert_sample! arm for an i16 cpal sample into an i32 ASIO
    sample: `(*cpal_s as i64 * i32::MAX as i64 / i16::MAX as i64) as i32`
    (stream.rs lines 658-665). -/
def convert_sample_i16_to_i32 (s : Int) : Int :=
  asI32 ((s * 2147483647).tdiv 32767)

/-- Input-path convert_sample! arm for an i32 ASIO sample into an i16 cpal
    sample: `(*asio_s as i64 * i16::MAX as i64 / i32::MAX as i64) as i16`
    (stream.rs lines 336-343). -/
def convert_sample_i32_to_i16 (s : Int) : Int :=
  asI16 ((s * 32767).tdiv 2147483647)

/-! ## Endian conversion helpers (stream.rs lines 949-963), on a little-endian
    host: `to_le` / `from_le` are the identity, `to_be` / `from_be` swap the
    bytes of the twos-complement representation. -/

inductive Endian
  | little
  | big
deriving DecidableEq

/-- Byte reversal of the 32-bit twos-complement representation. -/
def byteswap32 (z : Int) : Int :=
  let u := z % 2 ^ 32
  let b0 := u % 256
  let b1 := u / 256 % 256
  let b2 := u / 65536 % 256
  let b3 := u / 16777216 % 256
  asI32 (b0 * 16777216 + b1 * 65536 + b2 * 256 + b3)

/-- Byte reversal of the 16-bit twos-complement representation. -/
def byteswap16 (z : Int) : Int :=
  let u := z % 2 ^ 16
  asI16 (u % 256 * 256 + u / 256 % 256)

/-- `convert_endian_to` at type i32 on a little-endian host. -/
def convert_endian_to32 (sample : Int) (endian : Endian) : Int :=
  match endian with
  | Endian.big => byteswap32 sample
  | Endian.little => sample

/-- `convert_endian_from` at type i16 on a little-endian host. -/
def convert_endian_from16 (sample : Int) (endian : Endian) : Int :=
  match endian with
  | Endian.big => byteswap16 sample
  | Endian.little => sample

/-! ## The stream registry (EventLoop.cpal_streams and stream_count) -/

/-- The per-logical-stream state (struct Stream, stream.rs line 46). -/
structure Stream where
  playing : Bool
deriving DecidableEq

/-- The contents of the `cpal_streams` vector: `Vec<Option<Stream>>`. -/
abbrev CpalStreams := List (Option Stream)

/-- The parts of EventLoop state that the registry operations touch:
    the `stream_count` atomic counter and the `cpal_streams` vector
    (stream.rs lines 24-33, initialised empty with count 0 in
    `EventLoop::new`, lines 73-85). -/
structure EventLoopState where
  streamCount : Nat
  cpalStreams : CpalStreams
deriving DecidableEq

/-- The state built by `EventLoop::new` (stream.rs lines 73-85). -/
def newEventLoopState : EventLoopState := ⟨0, []⟩

/-- The registry effect of a successful `build_input_stream` /
    `build_output_stream` call: `let count = self.stream_count.fetch_add(1)`
    (which returns the previous value, stream.rs line 214 / 544) followed by
    `cpal_streams.push(Some(Stream { playing: false }))` (lines 524-527 /
    875-878); the returned `StreamId` wraps `count`. -/
def registerStream (st : EventLoopState) : EventLoopState × Nat :=
  (⟨st.streamCount + 1, st.cpalStreams ++ [some ⟨false⟩]⟩, st.streamCount)

/-- Modelled from the spec: the error taxonomy names an `InvalidStreamId`
    condition for operations addressing a destroyed or unknown handle. The
    `PlayStreamError` / `PauseStreamError` types live outside src/; the code
    under src/ never constructs any error value for them. -/
inductive StreamIdError
  | invalidStreamId
deriving DecidableEq

/-- Result of `play_stream`: the updated registry plus whether `sys::play()`
    was called; `panicked` models the `.expect("Bad play stream index")`. -/
inductive PlayOutcome
  | panicked
  | err (e : StreamIdError)
  | ok (streams : CpalStreams) (hwPlayCalled : Bool)
deriving DecidableEq

/-- `EventLoop::play_stream` (stream.rs lines 884-894): panics when the id is
    out of range, silently skips the assignment when the slot is None, sets
    `playing = true` otherwise, and unconditionally calls `sys::play()`. -/
def play_stream (streams : CpalStreams) (id : Nat) : PlayOutcome :=
  match streams[id]? with
  | none => PlayOutcome.panicked
  | some none => PlayOutcome.ok streams true
  | some (some _) => PlayOutcome.ok (streams.set id (some ⟨true⟩)) true

/-- The `any_playing` test of `pause_stream` (stream.rs lines 906-908). -/
def any_playing (streams : CpalStreams) : Bool :=
  streams.any fun s =>
    match s with
    | some s => s.playing
    | none => false

/-- Result of `pause_stream`: updated registry plus whether `sys::stop()` was
    called. -/
inductive PauseOutcome
  | panicked
  | err (e : StreamIdError)
  | ok (streams : CpalStreams) (hwStopCalled : Bool)
deriving DecidableEq

/-- `EventLoop::pause_stream` (stream.rs lines 896-913): panics when the id is
    out of range, sets `playing = false` when the slot holds a stream, then
    calls `sys::stop()` if (sic) any stream is still playing. -/
def pause_stream (streams : CpalStreams) (id : Nat) : PauseOutcome :=
  match streams[id]? with
  | none => PauseOutcome.panicked
  | some slot =>
    let streams' :=
      match slot with
      | none => streams
      | some _ => streams.set id (some ⟨false⟩)
    PauseOutcome.ok streams' (any_playing streams')

/-- `EventLoop::destroy_stream` (stream.rs lines 915-919). The body is
    `streams.get_mut(stream_id.0).take()`: `get_mut` returns a temporary
    `Option< &mut Option<Stream> >` value and `Option::take` auto-mut-borrows
    that temporary, emptying the temporary and discarding the returned
    mutable reference. The slot inside the vector is never written, so the
    operation leaves the registry unchanged. -/
def destroy_stream (streams : CpalStreams) (_id : Nat) : CpalStreams :=
  streams

/-! ## Format checking and hardware stream creation
    (check_format, get_input_stream, build_input_stream) -/

/-- The sample formats cpal can request (crate-level enum; the match arms in
    check_format show the three variants used by this backend). -/
inductive SampleFormat
  | i16fmt
  | u16fmt
  | f32fmt
deriving DecidableEq

/-- The cpal Format a build request carries. -/
structure Format where
  channels : Nat
  sampleRate : Nat
  dataType : SampleFormat
deriving DecidableEq

inductive BuildStreamError
  | formatNotSupported
  | deviceNotAvailable
deriving DecidableEq

/-- The driver collaborator state this engine reads and mutates:
    `get_sample_rate().rate`, `can_sample_rate` (membership in the set of
    supported rates), `set_sample_rate` (mutates `sampleRate`), and the result
    of `prepare_input_stream` / `prepare_output_stream` (`some bufferSize` on
    success, `none` when the driver refuses). -/
structure Drivers where
  sampleRate : Nat
  canRates : List Nat
  prepareBufferSize : Option Nat
deriving DecidableEq

/-- Result of check_format: `none` for Ok, plus the possibly mutated driver. -/
structure CheckResult where
  result : Option BuildStreamError
  drivers : Drivers
deriving DecidableEq

/-- `EventLoop::check_format` (stream.rs lines 87-118): first try to set the
    sample rate if it differs from the current driver rate (mutating the
    driver when the rate is supported, failing with FormatNotSupported when
    not), then reject U16 data, then reject channel counts above
    `num_asio_channels`. -/
def check_format (drivers : Drivers) (format : Format) (numAsioChannels : Nat) :
    CheckResult :=
  if format.sampleRate ≠ drivers.sampleRate then
    if drivers.canRates.contains format.sampleRate then
      let drivers' := { drivers with sampleRate := format.sampleRate }
      match format.dataType with
      | SampleFormat.u16fmt => ⟨some BuildStreamError.formatNotSupported, drivers'⟩
      | _ =>
        if format.channels > numAsioChannels then
          ⟨some BuildStreamError.formatNotSupported, drivers'⟩
        else ⟨none, drivers'⟩
    else ⟨some BuildStreamError.formatNotSupported, drivers⟩
  else
    match format.dataType with
    | SampleFormat.u16fmt => ⟨some BuildStreamError.formatNotSupported, drivers⟩
    | _ =>
      if format.channels > numAsioChannels then
        ⟨some BuildStreamError.formatNotSupported, drivers⟩
      else ⟨none, drivers⟩

/-- The `sys::AsioStreams` pair; `some bufferSize` when the ASIO stream of
    that direction exists. -/
structure AsioStreams where
  input : Option Nat
  output : Option Nat
deriving DecidableEq

/-- Outcome of get_input_stream / get_output_stream: the buffer size or the
    error, the possibly mutated driver and streams, and whether the
    prepare_*_stream driver call was made. -/
inductive GetStreamOutcome
  | failed (e : BuildStreamError) (drivers : Drivers) (streams : AsioStreams)
      (prepareCalled : Bool)
  | ok (bufferSize : Nat) (drivers : Drivers) (streams : AsioStreams)
      (prepareCalled : Bool)
deriving DecidableEq

/-- `EventLoop::get_input_stream` (stream.rs lines 123-159).
    `defaultInputChannels` models `device.default_input_format()`: `some max`
    on Ok (whose channel count is the advertised maximum), `none` on Err.
    When no ASIO input stream exists, `streams.output.take()` removes the
    output stream and hands it to `prepare_input_stream`; on success the
    whole pair is replaced by the driver result (input created, output as
    returned by the driver, modelled as handed back unchanged), on failure
    `DeviceNotAvailable` is returned. -/
def get_input_stream (drivers : Drivers) (format : Format)
    (defaultInputChannels : Option Nat) (streams : AsioStreams) :
    GetStreamOutcome :=
  match defaultInputChannels with
  | none => GetStreamOutcome.failed BuildStreamError.formatNotSupported drivers streams false
  | some numAsioChannels =>
    match check_format drivers format numAsioChannels with
    | ⟨some e, drv⟩ => GetStreamOutcome.failed e drv streams false
    | ⟨none, drv⟩ =>
      match streams.input with
      | some bufferSize => GetStreamOutcome.ok bufferSize drv streams false
      | none =>
        let takenOutput := streams.output
        match drv.prepareBufferSize with
        | some bufferSize =>
          GetStreamOutcome.ok bufferSize drv ⟨some bufferSize, takenOutput⟩ true
        | none =>
          GetStreamOutcome.failed BuildStreamError.deviceNotAvailable drv ⟨none, none⟩ true

/-- Outcome of build_input_stream at the whole-engine level. -/
inductive BuildOutcome
  | failed (e : BuildStreamError) (state : EventLoopState) (drivers : Drivers)
      (streams : AsioStreams)
  | built (id : Nat) (state : EventLoopState) (drivers : Drivers)
      (streams : AsioStreams)
deriving DecidableEq

/-- `EventLoop::build_input_stream` (stream.rs lines 203-530): on a
    get_input_stream failure the error is returned and the registry is left
    untouched (the closure passed to `map` never runs); on success the stream
    count is bumped and a paused Stream is pushed. -/
def build_input_stream (st : EventLoopState) (drivers : Drivers) (format : Format)
    (defaultInputChannels : Option Nat) (streams : AsioStreams) : BuildOutcome :=
  match get_input_stream drivers format defaultInputChannels streams with
  | GetStreamOutcome.failed e drv strms _ => BuildOutcome.failed e st drv strms
  | GetStreamOutcome.ok _ drv strms _ =>
    let r := registerStream st
    BuildOutcome.built r.2 r.1 drv strms

/-! ## The per-half-buffer callback path -/

/-- The playing guard at the top of both callbacks (stream.rs lines 250-260
    and 573-583): the callback returns early only when the slot exists and
    holds a stream whose playing flag is false; a missing or empty (None)
    slot falls through and the callback keeps working. -/
def callback_proceeds (streams : CpalStreams) (count : Nat) : Bool :=
  match streams[count]? with
  | some (some s) => s.playing
  | some none => true
  | none => true

/-- The sys::SILENCE_FIRST / sys::SILENCE_SECOND pair of flags (statics of
    the asio-sys crate). -/
structure SilenceFlags where
  first : Bool
  second : Bool
deriving DecidableEq

/-- Modelled from the spec: the SILENCE_FIRST / SILENCE_SECOND statics live in
    the asio-sys crate, outside the provided src/ tree; the spec records that
    both read false after initialization. -/
def initialSilenceFlags : SilenceFlags := ⟨false, false⟩

/-- The silence decision plus the updated flag pair. -/
structure SilenceDecision where
  silence : Bool
  flags : SilenceFlags
deriving DecidableEq

/-- The silence decision of the output callback (stream.rs lines 704-728):
    for half-buffer index 0, silence iff SILENCE_FIRST is false, in which
    case SILENCE_FIRST is set and SILENCE_SECOND cleared; symmetrically for
    index 1; any other index is `unreachable!()` in the source. -/
def silence_for_index (index : Nat) (flags : SilenceFlags) : SilenceDecision :=
  match index with
  | 0 => if !flags.first then ⟨true, ⟨true, false⟩⟩ else ⟨false, flags⟩
  | 1 => if !flags.second then ⟨true, ⟨false, true⟩⟩ else ⟨false, flags⟩
  | _ => ⟨false, flags⟩

/-- The flag pair reached after a sequence of silence decisions. -/
def run_silence_decisions (flags : SilenceFlags) (indices : List Nat) : SilenceFlags :=
  indices.foldl (fun f i => (silence_for_index i f).flags) flags

/-- Modelled from the spec: `au::deinterleave` (asio_utils is outside the
    provided src/ tree): channel c of the result holds interleaved[i*N + c]
    for i below interleaved.length / N; channel buffers are cleared and
    refilled on every call. -/
def deinterleave (interleaved : List Int) (numChannels : Nat) : List (List Int) :=
  (List.range numChannels).map fun c =>
    (List.range (interleaved.length / numChannels)).map fun i =>
      interleaved.getD (i * numChannels + c) 0

/-- Modelled from the spec: `au::interleave` (asio_utils is outside the
    provided src/ tree): out[i*N + c] = channels[c][i], for equal-length
    channel buffers. -/
def interleave (channels : List (List Int)) : List Int :=
  match channels with
  | [] => []
  | c0 :: _ => (List.range c0.length).flatMap fun i => channels.map fun ch => ch.getD i 0

/-- One channel of the accumulation loop of the output callback for the
    ASIOSTInt32LSB hardware format with i16 logical samples (stream.rs lines
    732-754): for each hardware cell paired with a logical sample, the cell
    is zeroed first when this invocation holds the silence token, then the
    converted sample is added; the `+=` on i32 wraps (release semantics),
    hence the `asI32` around the sum. -/
def mix_channel (silence : Bool) (hwChannel : List Int) (cpalChannel : List Int) :
    List Int :=
  List.zipWith
    (fun hw s =>
      asI32 ((if silence then 0 else hw) +
        convert_endian_to32 (convert_sample_i16_to_i32 s) Endian.little))
    hwChannel cpalChannel

/-- The two half-buffers of the hardware output stream, each a per-channel
    list of samples. -/
structure HwOutputBuffers where
  firstHalf : List (List Int)
  secondHalf : List (List Int)
deriving DecidableEq

/-- The half-buffer selected by an index. -/
def halfAt (index : Nat) (hw : HwOutputBuffers) : List (List Int) :=
  match index with
  | 0 => hw.firstHalf
  | _ => hw.secondHalf

/-- Everything one output callback invocation produces. -/
structure OutputInvocationResult where
  flags : SilenceFlags
  hw : HwOutputBuffers
  callbackInvoked : Bool
  silenced : Bool
deriving DecidableEq

/-- One invocation of the output callback installed by build_output_stream
    (stream.rs lines 573-873), on the ASIOSTInt32LSB / i16 path: the playing
    guard, the missing-hardware-stream and missing-user-callback early
    returns, then the user callback filling the interleaved buffer (its
    contents are passed in as `fill`), deinterleaving, the silence decision,
    and the accumulation into the half-buffer named by `index`. -/
def output_invocation (cpalStreams : CpalStreams) (count : Nat)
    (outputStreamPresent callbackPresent : Bool) (fill : List Int)
    (numChannels index : Nat) (flags : SilenceFlags) (hw : HwOutputBuffers) :
    OutputInvocationResult :=
  if !callback_proceeds cpalStreams count then ⟨flags, hw, false, false⟩
  else if !outputStreamPresent then ⟨flags, hw, false, false⟩
  else if !callbackPresent then ⟨flags, hw, false, false⟩
  else
    let channels := deinterleave fill numChannels
    let d := silence_for_index index flags
    let hw' :=
      match index with
      | 0 => ⟨List.zipWith (mix_channel d.silence) hw.firstHalf channels, hw.secondHalf⟩
      | 1 => ⟨hw.firstHalf, List.zipWith (mix_channel d.silence) hw.secondHalf channels⟩
      | _ => hw
    ⟨d.flags, hw', true, d.silence⟩

/-- One channel of the conversion loop of the input callback for the
    ASIOSTInt32LSB hardware format with i16 logical samples (stream.rs lines
    362-380): each hardware sample is converted to i16 and then
    endian-converted (convert_endian_from, Endian::Little). -/
def input_convert_channel (hwChannel : List Int) : List Int :=
  hwChannel.map fun s =>
    convert_endian_from16 (convert_sample_i32_to_i16 s) Endian.little

/-- One invocation of the input callback installed by build_input_stream
    (stream.rs lines 250-522) on the ASIOSTInt32LSB / i16 path, returning the
    interleaved buffer handed to the user callback, or none when the
    invocation returns early without invoking it. -/
def input_invocation (cpalStreams : CpalStreams) (count : Nat)
    (inputStreamPresent callbackPresent : Bool) (hwHalf : List (List Int)) :
    Option (List Int) :=
  if !callback_proceeds cpalStreams count then none
  else if !inputStreamPresent then none
  else if !callbackPresent then none
  else some (interleave (hwHalf.map input_convert_channel))

/-- The silence flag the output callback consults for a half-buffer index. -/
def flag_at (index : Nat) (flags : SilenceFlags) : Bool :=
  match index with
  | 0 => flags.first
  | 1 => flags.second
  | _ => false

/-! ## Theorems and claim verdicts -/

/-! ## Claim C2: i16 to i32 round trip -/

/-- C2: the claim states that converting any i16 sample to i32 with
    `x * i32::MAX / i16::MAX` (in i64) and back with `y * i16::MAX / i32::MAX`
    reproduces x within plus-or-minus 1 LSB, including x = i16::MIN. It fails
    at x = -32768: the i64 quotient is -2147549185, which does not fit in i32,
    so the `as i32` narrowing wraps it to +2147418111, and the round trip
    returns 32766 instead of a value within 1 of -32768. -/
theorem convert_sample_i16_min_roundtrip_wraps :
    convert_sample_i16_to_i32 (-32768) = 2147418111 ∧
    convert_sample_i32_to_i16 (convert_sample_i16_to_i32 (-32768)) = 32766 ∧
    ¬ ((32766 : Int) - (-32768) ≤ 1) := by
  refine ⟨by decide, by decide, by decide⟩

/-! ## Claim C3: identity assignment -/

/-- C3: the claim states that the first successful build returns identity 1
    and that three builds, a destroy and a fourth build yield identity 4. In
    the code `fetch_add` returns the previous counter value, so the first
    build returns StreamId(0) and the fourth returns StreamId(3), even though
    the doc comment on StreamId says the ids start at one. -/
theorem registerStream_first_id_zero_fourth_id_three :
    (registerStream newEventLoopState).2 = 0 ∧
    (let s1 := (registerStream newEventLoopState).1
     let s2 := (registerStream s1).1
     let s3 := (registerStream s2).1
     let s4 : EventLoopState := ⟨s3.streamCount, destroy_stream s3.cpalStreams 1⟩
     (registerStream s4).2 = 3) := by
  exact ⟨rfl, rfl⟩

/-! ## Claim C4: destroy_stream empties the slot -/

/-- C4: the claim states that destroying an existing stream marks its slot
    empty. In the code `streams.get_mut(id).take()` takes the temporary
    Option returned by `get_mut`, not the slot, so the registry is returned
    unchanged and the destroyed stream is still present (and still playing). -/
theorem destroy_stream_leaves_slot_occupied :
    destroy_stream [some ⟨true⟩] 0 = [some ⟨true⟩] ∧
    (destroy_stream [some ⟨true⟩] 0).get? 0 ≠ some none := by
  exact ⟨rfl, by decide⟩

/-! ## Claim C5: pause stops the hardware only when nothing plays -/

/-- C5: the claim states that after pause_stream clears the flag the shared
    hardware stream is stopped only when no logical stream remains playing.
    The code tests `if any_playing { sys::stop(); }`, the exact inverse: with
    two playing streams, pausing the first stops the hardware while the second
    is still playing, and pausing the last playing stream does not stop the
    hardware at all. -/
theorem pause_stream_stop_condition_inverted :
    pause_stream [some ⟨true⟩, some ⟨true⟩] 0
      = PauseOutcome.ok [some ⟨false⟩, some ⟨true⟩] true ∧
    pause_stream [some ⟨true⟩] 0
      = PauseOutcome.ok [some ⟨false⟩] false := by
  exact ⟨by decide, by decide⟩

/-! ## Claim C7: play/pause on destroyed or unknown ids -/

/-- C7 counterexample: the claim states that play_stream fails with
    InvalidStreamId when the id addresses a destroyed or never-created slot.
    The code never constructs that error: a None slot yields Ok (and still
    calls `sys::play()`), and an out-of-range id panics. -/
theorem play_stream_never_invalid_stream_id_counterexample :
    play_stream [none] 0 ≠ PlayOutcome.err StreamIdError.invalidStreamId ∧
    play_stream [none] 0 = PlayOutcome.ok [none] true ∧
    play_stream [some ⟨false⟩] 1 = PlayOutcome.panicked := by
  exact ⟨by decide, rfl, rfl⟩

/-- C7 amended: play_stream and pause_stream never produce InvalidStreamId;
    an id beyond the vector panics on the `.expect`, an id addressing an
    empty (None) slot returns Ok with every stream state unchanged, and an id
    addressing a live slot succeeds, setting the playing flag. -/
theorem play_pause_outcomes (streams : CpalStreams) (id : Nat) :
    (streams[id]? = none →
      play_stream streams id = PlayOutcome.panicked ∧
      pause_stream streams id = PauseOutcome.panicked) ∧
    (streams[id]? = some none →
      play_stream streams id = PlayOutcome.ok streams true ∧
      pause_stream streams id = PauseOutcome.ok streams (any_playing streams)) ∧
    (∀ s, streams[id]? = some (some s) →
      play_stream streams id = PlayOutcome.ok (streams.set id (some ⟨true⟩)) true ∧
      pause_stream streams id
        = PauseOutcome.ok (streams.set id (some ⟨false⟩))
            (any_playing (streams.set id (some ⟨false⟩)))) ∧
    (∀ e, play_stream streams id ≠ PlayOutcome.err e) ∧
    (∀ e, pause_stream streams id ≠ PauseOutcome.err e) := by
  refine ⟨fun h => ⟨?_, ?_⟩, fun h => ⟨?_, ?_⟩, fun s h => ⟨?_, ?_⟩, fun e => ?_, fun e => ?_⟩ <;>
    first
      | simp [play_stream, pause_stream, h]
      | (rcases hg : streams[id]? with _ | ⟨_ | s⟩ <;>
          simp [play_stream, pause_stream, hg])

/-- C7 amended witness: a valid id succeeds, setting the playing flag. -/
theorem play_pause_outcomes_witness :
    play_stream [some ⟨false⟩] 0
      = PlayOutcome.ok (([some ⟨false⟩] : CpalStreams).set 0 (some ⟨true⟩)) true ∧
    pause_stream [some ⟨false⟩] 0
      = PauseOutcome.ok (([some ⟨false⟩] : CpalStreams).set 0 (some ⟨false⟩))
          (any_playing (([some ⟨false⟩] : CpalStreams).set 0 (some ⟨false⟩))) :=
  (play_pause_outcomes [some ⟨false⟩] 0).2.2.1 ⟨false⟩ rfl

/-! ## Claim C8: over-large channel count -/

/-- A concrete driver for the C8 counterexample: current rate 44100, the
    requested rate 48000 is supported, stream preparation would succeed. -/
def c8drivers : Drivers := ⟨44100, [44100, 48000], some 256⟩

/-- The C8 counterexample request: 3 channels (above the advertised maximum
    of 2), rate 48000, i16 samples. -/
def c8format : Format := ⟨3, 48000, SampleFormat.i16fmt⟩

/-- C8 counterexample: the claim states that a request with too many channels
    fails with FormatNotSupported with no driver state mutated. The failure
    and the absence of any prepare call hold, but check_format sets the
    sample rate before checking the channel count, so the failed call leaves
    the driver at rate 48000 instead of 44100. -/
theorem get_input_stream_failed_call_mutates_sample_rate :
    get_input_stream c8drivers c8format (some 2) ⟨none, none⟩
      = GetStreamOutcome.failed BuildStreamError.formatNotSupported
          ⟨48000, [44100, 48000], some 256⟩ ⟨none, none⟩ false ∧
    (⟨48000, [44100, 48000], some 256⟩ : Drivers).sampleRate ≠ c8drivers.sampleRate := by
  exact ⟨rfl, by decide⟩

/-- check_format always fails with FormatNotSupported when the requested
    channel count exceeds the advertised maximum (whatever the rate or data
    type), returning some driver state. -/
theorem check_format_channels_exceed (drivers : Drivers) (format : Format)
    (numAsioChannels : Nat) (h : numAsioChannels < format.channels) :
    ∃ drv, check_format drivers format numAsioChannels
      = ⟨some BuildStreamError.formatNotSupported, drv⟩ := by
  unfold check_format
  split
  · split
    · rcases format with ⟨c, r, dt⟩
      rcases dt <;> simp_all
    · exact ⟨drivers, rfl⟩
  · rcases format with ⟨c, r, dt⟩
    rcases dt <;> simp_all

/-- C8 amended: a channel count above the advertised maximum makes
    build_input_stream fail with FormatNotSupported; prepare_input_stream is
    never called, the ASIO stream pair is unchanged and the registry state is
    unchanged; the driver state, however, may have been mutated (its sample
    rate set to the requested rate) before the failure. -/
theorem build_input_stream_channels_exceed (st : EventLoopState) (drivers : Drivers)
    (format : Format) (numAsioChannels : Nat) (streams : AsioStreams)
    (h : numAsioChannels < format.channels) :
    ∃ drv,
      get_input_stream drivers format (some numAsioChannels) streams
        = GetStreamOutcome.failed BuildStreamError.formatNotSupported drv streams false ∧
      build_input_stream st drivers format (some numAsioChannels) streams
        = BuildOutcome.failed BuildStreamError.formatNotSupported st drv streams := by
  obtain ⟨drv, hc⟩ := check_format_channels_exceed drivers format numAsioChannels h
  refine ⟨drv, ?_, ?_⟩ <;> simp [get_input_stream, build_input_stream, hc]

/-- C8 amended witness: the concrete over-large request fails with
    FormatNotSupported, no prepare call, streams and registry unchanged. -/
theorem build_input_stream_channels_exceed_witness :
    ∃ drv,
      get_input_stream c8drivers c8format (some 2) ⟨none, none⟩
        = GetStreamOutcome.failed BuildStreamError.formatNotSupported drv ⟨none, none⟩ false ∧
      build_input_stream newEventLoopState c8drivers c8format (some 2) ⟨none, none⟩
        = BuildOutcome.failed BuildStreamError.formatNotSupported newEventLoopState drv
            ⟨none, none⟩ :=
  build_input_stream_channels_exceed newEventLoopState c8drivers c8format 2 ⟨none, none⟩
    (by decide)

/-! ## Claim C6: destroyed slots inside the callback -/

/-- C6: the claim states that a destroyed (empty) slot is treated identically
    to a not-playing stream by a callback invocation. The guard falls through
    for a None slot, so the conversion work runs and the user callback is
    invoked, while for a paused stream the invocation returns immediately. -/
theorem callback_destroyed_slot_not_skipped :
    callback_proceeds [none] 0 = true ∧
    input_invocation [none] 0 true true [[0]] = some [0] ∧
    input_invocation [some ⟨false⟩] 0 true true [[0]] = none := by
  exact ⟨rfl, rfl, rfl⟩

/-! ## Arithmetic helper lemmas -/

theorem asI32_eq_self {z : Int} (h1 : -2147483648 ≤ z) (h2 : z < 2147483648) :
    asI32 z = z := by
  unfold asI32
  rw [Int.emod_eq_of_lt (by omega) (by omega)]
  omega

theorem asI32_asI32 (z : Int) : asI32 (asI32 z) = asI32 z := by
  have h0 : (0 : Int) ≤ (z + 2147483648) % 4294967296 :=
    Int.emod_nonneg _ (by norm_num)
  have h1 : (z + 2147483648) % 4294967296 < 4294967296 :=
    Int.emod_lt_of_pos _ (by norm_num)
  exact asI32_eq_self (by unfold asI32; omega) (by unfold asI32; omega)

theorem asI32_convert_sample (c : Int) :
    asI32 (convert_sample_i16_to_i32 c) = convert_sample_i16_to_i32 c :=
  asI32_asI32 _

/-! ## List helper lemmas for the mixing path -/

theorem deinterleave_replicate (n numCh : Nat) (h : 0 < numCh) (c : Int) :
    deinterleave (List.replicate (n * numCh) c) numCh
      = List.replicate numCh (List.replicate n c) := by
  unfold deinterleave
  rw [List.length_replicate, Nat.mul_div_cancel n h]
  rw [List.eq_replicate_iff]
  refine ⟨by simp, ?_⟩
  intro b hb
  simp only [List.mem_map, List.mem_range] at hb
  obtain ⟨ch, hch, rfl⟩ := hb
  rw [List.eq_replicate_iff]
  refine ⟨by simp, ?_⟩
  intro b hb
  simp only [List.mem_map, List.mem_range] at hb
  obtain ⟨i, hi, rfl⟩ := hb
  have hlt : i * numCh + ch < n * numCh := by
    calc i * numCh + ch < i * numCh + numCh := by omega
    _ = (i + 1) * numCh := by ring
    _ ≤ n * numCh := Nat.mul_le_mul_right _ (by omega)
  simp [List.getD, List.getElem?_replicate, hlt]

theorem mix_channel_silence_replicate (hwc : List Int) (n : Nat) (c : Int)
    (hlen : hwc.length = n) :
    mix_channel true hwc (List.replicate n c)
      = List.replicate n (convert_sample_i16_to_i32 c) := by
  induction hwc generalizing n with
  | nil => simp_all [mix_channel]
  | cons a t ih =>
    cases n with
    | zero => simp at hlen
    | succ m =>
      simp only [List.replicate_succ, mix_channel, List.zipWith_cons_cons] at ih ⊢
      refine congrArg₂ List.cons ?_ (ih m (by simpa using hlen))
      simp [convert_endian_to32, asI32_convert_sample]

theorem zipWith_mix_silence (H : List (List Int)) (n m : Nat) (c : Int)
    (hH : H.length = m) (hch : ∀ ch ∈ H, ch.length = n) :
    List.zipWith (mix_channel true) H (List.replicate m (List.replicate n c))
      = List.replicate m (List.replicate n (convert_sample_i16_to_i32 c)) := by
  induction H generalizing m with
  | nil => simp_all
  | cons a t ih =>
    cases m with
    | zero => simp at hH
    | succ k =>
      simp only [List.replicate_succ, List.zipWith_cons_cons]
      refine congrArg₂ List.cons ?_ ?_
      · exact mix_channel_silence_replicate a n c (hch a (by simp))
      · exact ih k (by simpa using hH) (fun ch hc => hch ch (by simp [hc]))

theorem mix_channel_accumulate_replicate (n : Nat) (a c : Int) :
    mix_channel false (List.replicate n a) (List.replicate n c)
      = List.replicate n (asI32 (a + convert_sample_i16_to_i32 c)) := by
  unfold mix_channel
  simp [List.zipWith_replicate, convert_endian_to32]

/-! ## Claim C9: streams start paused, play transitions, paused is a no-op -/

/-- C9: a stream created by build_input_stream / build_output_stream starts
    with playing = false; play_stream on its id sets the flag to true; and a
    callback invocation addressing an existing slot whose flag is false
    returns immediately, invoking no user callback and leaving the silence
    flags and hardware buffers untouched. The hypothesis ties the counter to
    the vector length, which holds along every real call sequence because
    fetch_add and push happen together. -/
theorem build_starts_paused_play_transitions
    (st : EventLoopState) (hlen : st.streamCount = st.cpalStreams.length)
    (hwPresent cbPresent : Bool) (hwHalf : List (List Int)) (fill : List Int)
    (numChannels index : Nat) (flags : SilenceFlags) (hwOut : HwOutputBuffers) :
    ((registerStream st).1.cpalStreams)[(registerStream st).2]? = some (some ⟨false⟩) ∧
    play_stream (registerStream st).1.cpalStreams (registerStream st).2
      = PlayOutcome.ok
          ((registerStream st).1.cpalStreams.set (registerStream st).2 (some ⟨true⟩)) true ∧
    input_invocation (registerStream st).1.cpalStreams (registerStream st).2
        hwPresent cbPresent hwHalf = none ∧
    output_invocation (registerStream st).1.cpalStreams (registerStream st).2
        hwPresent cbPresent fill numChannels index flags hwOut
      = ⟨flags, hwOut, false, false⟩ := by
  have hg : ((registerStream st).1.cpalStreams)[(registerStream st).2]?
      = some (some ⟨false⟩) := by
    simp only [registerStream]
    rw [hlen]
    exact List.getElem?_concat_length _ _
  refine ⟨hg, ?_, ?_, ?_⟩
  · simp [play_stream, hg]
  · simp [input_invocation, callback_proceeds, hg]
  · simp [output_invocation, callback_proceeds, hg]

/-- C9 witness: on a fresh event loop the built stream is paused, play marks
    it playing, and a paused invocation does nothing. -/
theorem build_starts_paused_play_transitions_witness :
    ((registerStream newEventLoopState).1.cpalStreams)[(registerStream newEventLoopState).2]?
      = some (some ⟨false⟩) ∧
    play_stream (registerStream newEventLoopState).1.cpalStreams
        (registerStream newEventLoopState).2
      = PlayOutcome.ok
          ((registerStream newEventLoopState).1.cpalStreams.set
            (registerStream newEventLoopState).2 (some ⟨true⟩)) true ∧
    input_invocation (registerStream newEventLoopState).1.cpalStreams
        (registerStream newEventLoopState).2 true true [[3]] = none ∧
    output_invocation (registerStream newEventLoopState).1.cpalStreams
        (registerStream newEventLoopState).2 true true [5] 1 0
        initialSilenceFlags ⟨[[9]], [[9]]⟩
      = ⟨initialSilenceFlags, ⟨[[9]], [[9]]⟩, false, false⟩ :=
  build_starts_paused_play_transitions newEventLoopState rfl true true [[3]] [5] 1 0
    initialSilenceFlags ⟨[[9]], [[9]]⟩

/-! ## Claim C10: first touch of an index is silenced -/

/-- The flag for index i stays false across decisions taken only at the
    opposite index. -/
theorem flag_at_run_other (pre : List Nat) (i : Nat) (hi : i = 0 ∨ i = 1)
    (hpre : ∀ j ∈ pre, (j = 0 ∨ j = 1) ∧ j ≠ i) (flags : SilenceFlags)
    (hflag : flag_at i flags = false) :
    flag_at i (run_silence_decisions flags pre) = false := by
  induction pre generalizing flags with
  | nil => exact hflag
  | cons j t ih =>
    have hj := hpre j (by simp)
    have ht : ∀ j ∈ t, (j = 0 ∨ j = 1) ∧ j ≠ i := fun x hx => hpre x (by simp [hx])
    show flag_at i (run_silence_decisions (silence_for_index j flags).flags t) = false
    refine ih ht _ ?_
    rcases hi with rfl | rfl <;> rcases hj.1 with rfl | rfl <;>
      first
        | exact absurd rfl hj.2
        | (simp only [silence_for_index]
           split <;> simp_all [flag_at])

/-- C10: from the initial flag state (both flags false) every invocation
    sequence that has not yet touched half-buffer index i leaves its flag
    false, so the very first output callback invocation touching i takes the
    silence branch; and a silenced accumulation pass is independent of the
    stale hardware contents, so stale data is never added on a first touch. -/
theorem first_touch_of_index_is_silenced (pre : List Nat) (i : Nat)
    (hi : i = 0 ∨ i = 1) (hpre : ∀ j ∈ pre, (j = 0 ∨ j = 1) ∧ j ≠ i) :
    (silence_for_index i (run_silence_decisions initialSilenceFlags pre)).silence = true ∧
    (∀ hwc hwc' vals : List Int, hwc.length = hwc'.length →
      mix_channel true hwc vals = mix_channel true hwc' vals) := by
  constructor
  · have hf : flag_at i (run_silence_decisions initialSilenceFlags pre) = false :=
      flag_at_run_other pre i hi hpre initialSilenceFlags
        (by rcases hi with rfl | rfl <;> rfl)
    rcases hi with rfl | rfl <;>
      · simp only [silence_for_index, flag_at] at hf ⊢
        simp [hf]
  · intro hwc hwc' vals hlen
    induction hwc generalizing hwc' vals with
    | nil =>
      cases hwc' with
      | nil => rfl
      | cons b t' => simp at hlen
    | cons a t ih =>
      cases hwc' with
      | nil => simp at hlen
      | cons b t' =>
        cases vals with
        | nil => rfl
        | cons v vs =>
          simp only [mix_channel, List.zipWith_cons_cons] at ih ⊢
          exact congrArg₂ List.cons (by simp) (ih t' vs (by simpa using hlen))

/-- C10 witness: after a first-half invocation, the first touch of the second
    half is silenced, and a silenced mix ignores the stale cell value. -/
theorem first_touch_of_index_is_silenced_witness :
    (silence_for_index 1 (run_silence_decisions initialSilenceFlags [0])).silence = true ∧
    mix_channel true [7] [5] = mix_channel true [100] [5] :=
  ⟨(first_touch_of_index_is_silenced [0] 1 (Or.inr rfl) (by decide)).1,
    (first_touch_of_index_is_silenced [0] 1 (Or.inr rfl) (by decide)).2 [7] [100] [5] rfl⟩

theorem mixing_case_zero (c1v c2v : Int) (numCh n : Nat) (flags : SilenceFlags)
    (hw0 : HwOutputBuffers) (H : List (List Int))
    (hFlag : flag_at 0 flags = false) (hCh : 0 < numCh)
    (hHalf : halfAt 0 hw0 = H) (hHlen : H.length = numCh)
    (hHch : ∀ ch ∈ H, ch.length = n)
    (hsum : asI32 (convert_sample_i16_to_i32 c1v + convert_sample_i16_to_i32 c2v)
      = convert_sample_i16_to_i32 c1v + convert_sample_i16_to_i32 c2v) :
    (output_invocation [some ⟨true⟩, some ⟨true⟩] 0 true true
        (List.replicate (n * numCh) c1v) numCh 0 flags hw0).silenced = true ∧
    (output_invocation [some ⟨true⟩, some ⟨true⟩] 1 true true
        (List.replicate (n * numCh) c2v) numCh 0
        (output_invocation [some ⟨true⟩, some ⟨true⟩] 0 true true
          (List.replicate (n * numCh) c1v) numCh 0 flags hw0).flags
        (output_invocation [some ⟨true⟩, some ⟨true⟩] 0 true true
          (List.replicate (n * numCh) c1v) numCh 0 flags hw0).hw).silenced = false ∧
    halfAt 0
      (output_invocation [some ⟨true⟩, some ⟨true⟩] 1 true true
        (List.replicate (n * numCh) c2v) numCh 0
        (output_invocation [some ⟨true⟩, some ⟨true⟩] 0 true true
          (List.replicate (n * numCh) c1v) numCh 0 flags hw0).flags
        (output_invocation [some ⟨true⟩, some ⟨true⟩] 0 true true
          (List.replicate (n * numCh) c1v) numCh 0 flags hw0).hw).hw
      = List.replicate numCh (List.replicate n
          (convert_sample_i16_to_i32 c1v + convert_sample_i16_to_i32 c2v)) := by
  have hFlag0 : flags.first = false := hFlag
  have hHalf0 : hw0.firstHalf = H := hHalf
  have hr1 : output_invocation [some ⟨true⟩, some ⟨true⟩] 0 true true
      (List.replicate (n * numCh) c1v) numCh 0 flags hw0
      = ⟨⟨true, false⟩,
          ⟨List.replicate numCh (List.replicate n (convert_sample_i16_to_i32 c1v)),
            hw0.secondHalf⟩, true, true⟩ := by
    simp [output_invocation, callback_proceeds, silence_for_index, hFlag0, hHalf0,
      deinterleave_replicate n numCh hCh, zipWith_mix_silence H n numCh c1v hHlen hHch]
  have hr2 : output_invocation [some ⟨true⟩, some ⟨true⟩] 1 true true
      (List.replicate (n * numCh) c2v) numCh 0 ⟨true, false⟩
      ⟨List.replicate numCh (List.replicate n (convert_sample_i16_to_i32 c1v)),
        hw0.secondHalf⟩
      = ⟨⟨true, false⟩,
          ⟨List.replicate numCh (List.replicate n
            (convert_sample_i16_to_i32 c1v + convert_sample_i16_to_i32 c2v)),
            hw0.secondHalf⟩, true, false⟩ := by
    simp [output_invocation, callback_proceeds, silence_for_index,
      deinterleave_replicate n numCh hCh, List.zipWith_replicate,
      mix_channel_accumulate_replicate, hsum]
  rw [hr1]
  rw [show (⟨⟨true, false⟩,
      ⟨List.replicate numCh (List.replicate n (convert_sample_i16_to_i32 c1v)),
        hw0.secondHalf⟩, true, true⟩ : OutputInvocationResult).flags
      = ⟨true, false⟩ from rfl]
  rw [show (⟨⟨true, false⟩,
      ⟨List.replicate numCh (List.replicate n (convert_sample_i16_to_i32 c1v)),
        hw0.secondHalf⟩, true, true⟩ : OutputInvocationResult).hw
      = ⟨List.replicate numCh (List.replicate n (convert_sample_i16_to_i32 c1v)),
        hw0.secondHalf⟩ from rfl]
  rw [hr2]
  exact ⟨rfl, rfl, rfl⟩


theorem mixing_case_one (c1v c2v : Int) (numCh n : Nat) (flags : SilenceFlags)
    (hw0 : HwOutputBuffers) (H : List (List Int))
    (hFlag : flag_at 1 flags = false) (hCh : 0 < numCh)
    (hHalf : halfAt 1 hw0 = H) (hHlen : H.length = numCh)
    (hHch : ∀ ch ∈ H, ch.length = n)
    (hsum : asI32 (convert_sample_i16_to_i32 c1v + convert_sample_i16_to_i32 c2v)
      = convert_sample_i16_to_i32 c1v + convert_sample_i16_to_i32 c2v) :
    (output_invocation [some ⟨true⟩, some ⟨true⟩] 0 true true
        (List.replicate (n * numCh) c1v) numCh 1 flags hw0).silenced = true ∧
    (output_invocation [some ⟨true⟩, some ⟨true⟩] 1 true true
        (List.replicate (n * numCh) c2v) numCh 1
        (output_invocation [some ⟨true⟩, some ⟨true⟩] 0 true true
          (List.replicate (n * numCh) c1v) numCh 1 flags hw0).flags
        (output_invocation [some ⟨true⟩, some ⟨true⟩] 0 true true
          (List.replicate (n * numCh) c1v) numCh 1 flags hw0).hw).silenced = false ∧
    halfAt 1
      (output_invocation [some ⟨true⟩, some ⟨true⟩] 1 true true
        (List.replicate (n * numCh) c2v) numCh 1
        (output_invocation [some ⟨true⟩, some ⟨true⟩] 0 true true
          (List.replicate (n * numCh) c1v) numCh 1 flags hw0).flags
        (output_invocation [some ⟨true⟩, some ⟨true⟩] 0 true true
          (List.replicate (n * numCh) c1v) numCh 1 flags hw0).hw).hw
      = List.replicate numCh (List.replicate n
          (convert_sample_i16_to_i32 c1v + convert_sample_i16_to_i32 c2v)) := by
  have hFlag1 : flags.second = false := hFlag
  have hHalf1 : hw0.secondHalf = H := hHalf
  have hr1 : output_invocation [some ⟨true⟩, some ⟨true⟩] 0 true true
      (List.replicate (n * numCh) c1v) numCh 1 flags hw0
      = ⟨⟨false, true⟩,
          ⟨hw0.firstHalf,
            List.replicate numCh (List.replicate n (convert_sample_i16_to_i32 c1v))⟩,
          true, true⟩ := by
    simp [output_invocation, callback_proceeds, silence_for_index, hFlag1, hHalf1,
      deinterleave_replicate n numCh hCh, zipWith_mix_silence H n numCh c1v hHlen hHch]
  have hr2 : output_invocation [some ⟨true⟩, some ⟨true⟩] 1 true true
      (List.replicate (n * numCh) c2v) numCh 1 ⟨false, true⟩
      ⟨hw0.firstHalf,
        List.replicate numCh (List.replicate n (convert_sample_i16_to_i32 c1v))⟩
      = ⟨⟨false, true⟩,
          ⟨hw0.firstHalf,
            List.replicate numCh (List.replicate n
              (convert_sample_i16_to_i32 c1v + convert_sample_i16_to_i32 c2v))⟩,
          true, false⟩ := by
    simp [output_invocation, callback_proceeds, silence_for_index,
      deinterleave_replicate n numCh hCh, List.zipWith_replicate,
      mix_channel_accumulate_replicate, hsum]
  rw [hr1]
  rw [show (⟨⟨false, true⟩,
      ⟨hw0.firstHalf,
        List.replicate numCh (List.replicate n (convert_sample_i16_to_i32 c1v))⟩,
      true, true⟩ : OutputInvocationResult).flags = ⟨false, true⟩ from rfl]
  rw [show (⟨⟨false, true⟩,
      ⟨hw0.firstHalf,
        List.replicate numCh (List.replicate n (convert_sample_i16_to_i32 c1v))⟩,
      true, true⟩ : OutputInvocationResult).hw
      = ⟨hw0.firstHalf,
          List.replicate numCh (List.replicate n (convert_sample_i16_to_i32 c1v))⟩ from rfl]
  rw [hr2]
  exact ⟨rfl, rfl, rfl⟩

/-! ## Claim C1: two playing output streams mix additively after one silence -/

/-- C1: with two playing output streams writing constants c1 and c2, on the
    first pair of invocations after half-buffer index i became active (its
    silence flag reads false), the first invocation takes the silence branch
    (zeroing before accumulating, so the stale contents H vanish), the second
    does not, and every cell of the half-buffer then holds
    convert(c1) + convert(c2); silence is applied exactly once for the index
    within the fill cycle. The two range hypotheses state that the mixed sum
    fits in i32, so the wrapping `+=` adds exactly. -/
theorem output_mixing_two_streams (c1v c2v : Int) (numCh n index : Nat)
    (flags : SilenceFlags) (hw0 : HwOutputBuffers) (H : List (List Int))
    (hIdx : index = 0 ∨ index = 1)
    (hFlag : flag_at index flags = false)
    (hCh : 0 < numCh)
    (hHalf : halfAt index hw0 = H)
    (hHlen : H.length = numCh)
    (hHch : ∀ ch ∈ H, ch.length = n)
    (hlo : -2147483648 ≤ convert_sample_i16_to_i32 c1v + convert_sample_i16_to_i32 c2v)
    (hhi : convert_sample_i16_to_i32 c1v + convert_sample_i16_to_i32 c2v < 2147483648) :
    (output_invocation [some ⟨true⟩, some ⟨true⟩] 0 true true
        (List.replicate (n * numCh) c1v) numCh index flags hw0).silenced = true ∧
    (output_invocation [some ⟨true⟩, some ⟨true⟩] 1 true true
        (List.replicate (n * numCh) c2v) numCh index
        (output_invocation [some ⟨true⟩, some ⟨true⟩] 0 true true
          (List.replicate (n * numCh) c1v) numCh index flags hw0).flags
        (output_invocation [some ⟨true⟩, some ⟨true⟩] 0 true true
          (List.replicate (n * numCh) c1v) numCh index flags hw0).hw).silenced = false ∧
    halfAt index
      (output_invocation [some ⟨true⟩, some ⟨true⟩] 1 true true
        (List.replicate (n * numCh) c2v) numCh index
        (output_invocation [some ⟨true⟩, some ⟨true⟩] 0 true true
          (List.replicate (n * numCh) c1v) numCh index flags hw0).flags
        (output_invocation [some ⟨true⟩, some ⟨true⟩] 0 true true
          (List.replicate (n * numCh) c1v) numCh index flags hw0).hw).hw
      = List.replicate numCh (List.replicate n
          (convert_sample_i16_to_i32 c1v + convert_sample_i16_to_i32 c2v)) := by
  have hsum : asI32 (convert_sample_i16_to_i32 c1v + convert_sample_i16_to_i32 c2v)
      = convert_sample_i16_to_i32 c1v + convert_sample_i16_to_i32 c2v :=
    asI32_eq_self hlo hhi
  rcases hIdx with rfl | rfl
  · exact mixing_case_zero c1v c2v numCh n flags hw0 H hFlag hCh hHalf hHlen hHch hsum
  · exact mixing_case_one c1v c2v numCh n flags hw0 H hFlag hCh hHalf hHlen hHch hsum

/-- C1 witness: one channel, one frame per half-buffer, index 0 just became
    active, stale cell value 5; constants 2 and 3 mix to
    convert(2) + convert(3). -/
theorem output_mixing_two_streams_witness :
    (output_invocation [some ⟨true⟩, some ⟨true⟩] 0 true true
        (List.replicate (1 * 1) 2) 1 0 ⟨false, false⟩ ⟨[[5]], [[7]]⟩).silenced = true ∧
    (output_invocation [some ⟨true⟩, some ⟨true⟩] 1 true true
        (List.replicate (1 * 1) 3) 1 0
        (output_invocation [some ⟨true⟩, some ⟨true⟩] 0 true true
          (List.replicate (1 * 1) 2) 1 0 ⟨false, false⟩ ⟨[[5]], [[7]]⟩).flags
        (output_invocation [some ⟨true⟩, some ⟨true⟩] 0 true true
          (List.replicate (1 * 1) 2) 1 0 ⟨false, false⟩ ⟨[[5]], [[7]]⟩).hw).silenced = false ∧
    halfAt 0
      (output_invocation [some ⟨true⟩, some ⟨true⟩] 1 true true
        (List.replicate (1 * 1) 3) 1 0
        (output_invocation [some ⟨true⟩, some ⟨true⟩] 0 true true
          (List.replicate (1 * 1) 2) 1 0 ⟨false, false⟩ ⟨[[5]], [[7]]⟩).flags
        (output_invocation [some ⟨true⟩, some ⟨true⟩] 0 true true
          (List.replicate (1 * 1) 2) 1 0 ⟨false, false⟩ ⟨[[5]], [[7]]⟩).hw).hw
      = List.replicate 1 (List.replicate 1
          (convert_sample_i16_to_i32 2 + convert_sample_i16_to_i32 3)) :=
  output_mixing_two_streams 2 3 1 1 0 ⟨false, false⟩ ⟨[[5]], [[7]]⟩ [[5]] (Or.inl rfl) rfl
    (by decide) rfl rfl (by decide) (by decide) (by decide)

end CpalAsio
